import Mathlib

/-!
Shallow embedding of `src/backend/routers/orders_router.py` (orders router of the
glass order-to-cash core): order creation with pricing, advance policy, credit
limit check, payment verification (advance and remaining legs), cash marking,
order-number generation, and the ledger posting events the router emits.

Modelling conventions: Python floats carrying money are modelled as exact
rationals (`ℚ`); `round(x, 2)` is modelled as half-even rounding to two
decimals (`round2`); MongoDB documents become structures with `Option` fields
where the code uses `dict.get`; the database is a `Db` structure of lists; the
HMAC-SHA256 primitive is an explicit function parameter `hmacSig : String →
String → String` (secret, message ↦ hex digest), since the claims depend only
on equality of recomputed signatures; `uuid`, "now" timestamps and the gateway
order-creation outcome are explicit parameters.
-/

/-- Half-even ("banker's") rounding of a rational to an integer, modelling
Python's `round` on an exact value. -/
def bankersRound (x : ℚ) : ℤ :=
  let f : ℤ := ⌊x⌋
  let r : ℚ := x - (f : ℚ)
  if r < 1/2 then f
  else if 1/2 < r then f + 1
  else if f % 2 = 0 then f else f + 1

/-- `round(x, 2)` from the source, on exact rationals. -/
def round2 (x : ℚ) : ℚ := ((bankersRound (100 * x) : ℤ) : ℚ) / 100

/-- A rational that is a whole number of cents (two-decimal currency value). -/
def isCents (x : ℚ) : Prop := ∃ k : ℤ, x = (k : ℚ) / 100

/-- Python truthiness of an optional string (`None` and `""` are falsy). -/
def truthy (o : Option String) : Bool :=
  match o with
  | none => false
  | some s => s != ""

/-- Python `a or b` on optional strings (falls through on `None`/`""`). -/
def pyOr (a b : Option String) : Option String :=
  if truthy a then a else b

/-- Python f-string rendering of an optional string (`None` prints as "None"). -/
def optStr (o : Option String) : String := o.getD "None"

/-- Decimal digits of `n`, least significant first, with structural fuel. -/
def natDigitsRev (fuel : ℕ) (n : ℕ) : List ℕ :=
  match fuel with
  | 0 => []
  | f + 1 => if n = 0 then [] else (n % 10) :: natDigitsRev f (n / 10)

/-- Python `str` of a natural number. -/
def natStr (n : ℕ) : String :=
  if n = 0 then "0" else ⟨((natDigitsRev n n).reverse).map Nat.digitChar⟩

/-- Python `str.zfill(w)`: left-pad with zeros to width `w`. -/
def zfill (w : ℕ) (s : String) : String :=
  (⟨List.replicate (w - s.data.length) '0'⟩ : String) ++ s

/-- Numeric value of a decimal digit character. -/
def digitVal (c : Char) : ℕ := c.toNat - 48

/-- Numeric value of a list of decimal digit characters. -/
def listVal (l : List Char) : ℕ := l.foldl (fun a c => 10 * a + digitVal c) 0

/-- Numeric value of a decimal string (inverse of zero-padded rendering). -/
def strVal (s : String) : ℕ := listVal s.data

/-- A decimal digit character (codepoints 48-57). -/
def IsDigit (c : Char) : Prop := 48 ≤ c.toNat ∧ c.toNat ≤ 57

/-- A calendar date, for `strftime` formatting. -/
structure Date where
  year : ℕ
  month : ℕ
  day : ℕ
deriving DecidableEq

/-- `strftime('%y%m%d')`. -/
def yymmdd (d : Date) : String :=
  zfill 2 (natStr (d.year % 100)) ++ zfill 2 (natStr d.month) ++ zfill 2 (natStr d.day)

/-- The day prefix `LG` + YYMMDD used by `generate_order_number`. -/
def dayCode (d : Date) : String := "LG" ++ yymmdd d

/-- The regex `^pfx` match used by the order-number count query. -/
def startsWith (p s : String) : Bool := p.data.isPrefixOf s.data

/-- Line item (`GlassItem` pydantic model). Pydantic performs type coercion
only; there are no value validators on this model. -/
structure GlassItem where
  product_id : String
  product_name : String
  thickness : ℚ
  width : ℚ
  height : ℚ
  quantity : ℤ
  unit_price : ℚ
  total_price : ℚ
  edging : Option String
  tempering : Bool
  lamination : Bool
  notes : Option String
deriving DecidableEq

/-- `DeliveryAddress` pydantic model (string fields kept optional so the
internally-constructed fallbacks, which may carry `None`, stay total). -/
structure DeliveryAddress where
  full_name : Option String
  phone : Option String
  address_line1 : Option String
  address_line2 : Option String
  city : Option String
  state : Option String
  pincode : Option String
  landmark : Option String
deriving DecidableEq

/-- A shipping-address entry of a customer profile document (dict). -/
structure ShippingAddress where
  id : Option String
  contact_person : Option String
  contact_phone : Option String
  address_line1 : Option String
  address_line2 : Option String
  city : Option String
  state : Option String
  pin_code : Option String
  site_name : Option String
deriving DecidableEq

/-- A billing-address sub-document (dict). -/
structure BillingAddress where
  address_line1 : Option String
  address_line2 : Option String
  city : Option String
  state : Option String
  pin_code : Option String
deriving DecidableEq

/-- A customer-profile document from `db.customer_profiles`. -/
structure CustomerProfile where
  id : String
  status : String
  display_name : Option String
  email : Option String
  mobile : Option String
  company_name : Option String
  gstin : Option String
  billing_address : Option BillingAddress
  credit_type : Option String
  credit_limit : Option ℚ
  credit_days : Option ℤ
  place_of_supply : Option String
  invoice_type : Option String
  shipping_addresses : Option (List ShippingAddress)
deriving DecidableEq

/-- `OrderCreate` request model. -/
structure OrderCreate where
  customer_profile_id : Option String
  customer_name : Option String
  customer_email : Option String
  customer_phone : Option String
  glass_items : List GlassItem
  delivery_address : Option DeliveryAddress
  shipping_address_id : Option String
  delivery_type : String
  notes : Option String
  advance_percent : Option ℤ
  is_credit_customer : Bool
  gst_number : Option String
  company_name : Option String
  place_of_supply : Option String
  billing_address : Option BillingAddress
deriving DecidableEq

/-- An order document as inserted by `create_order` and mutated by the payment
endpoints.  Keys that only appear after later updates are `Option` fields that
start out `none`. -/
structure Order where
  id : String
  order_number : String
  customer_id : Option String
  customer_profile_id : Option String
  customer_name : Option String
  customer_email : Option String
  customer_phone : Option String
  company_name : Option String
  gst_number : Option String
  invoice_type : String
  place_of_supply : Option String
  billing_address : Option BillingAddress
  glass_items : List GlassItem
  total_sqft : ℚ
  subtotal : ℚ
  tax_rate : ℚ
  tax_amount : ℚ
  total_price : ℚ
  advance_percent : ℤ
  advance_amount : ℚ
  remaining_amount : ℚ
  is_credit_customer : Bool
  credit_limit : ℚ
  credit_days : ℤ
  payment_status : String
  razorpay_order_id : Option String
  status : String
  production_stage : Option String
  delivery_address : Option DeliveryAddress
  delivery_type : String
  notes : Option String
  created_at : String
  updated_at : String
  razorpay_payment_id : Option String
  advance_paid_at : Option String
  remaining_razorpay_payment_id : Option String
  remaining_paid_at : Option String
  advance_payment_method : Option String
  remaining_payment_method : Option String
deriving DecidableEq

/-- The advance-settings document; every key is optional and read with
`dict.get(key, default)`. -/
structure AdvanceSettings where
  normal_customer_min : Option ℤ
  normal_customer_options : Option (List ℤ)
  credit_customer_min : Option ℤ
  credit_customer_options : Option (List ℤ)
  admin_override_allowed : Option Bool
  max_credit_limit : Option ℚ
deriving DecidableEq

/-- The hardcoded fallback settings built when no settings document exists. -/
def defaultAdvanceSettings : AdvanceSettings :=
  { normal_customer_min := some 50
    normal_customer_options := some [50, 75, 100]
    credit_customer_min := some 0
    credit_customer_options := some [0, 25, 50, 75, 100]
    admin_override_allowed := some true
    max_credit_limit := some 100000 }

/-- A cash-payment record inserted by `mark_cash_received`. -/
structure CashPayment where
  id : String
  order_id : String
  order_number : String
  amount : ℚ
  payment_type : String
  received_by : Option String
  received_at : String
deriving DecidableEq

/-- The database state shared by the endpoints. -/
structure Db where
  orders : List Order
  customer_profiles : List CustomerProfile
  settings : Option AdvanceSettings
  cash_payments : List CashPayment
deriving DecidableEq

/-- The authenticated user (`current_user` dict). -/
structure User where
  id : Option String
  role : Option String
  name : Option String
deriving DecidableEq

/-- Razorpay configuration from environment variables. -/
structure Cfg where
  keyId : String
  keySecret : String
deriving DecidableEq

/-- `razorpay_client` is non-`None` iff both env keys are nonempty. -/
def razorpayConfigured (c : Cfg) : Bool := c.keyId != "" && c.keySecret != ""

/-- A posting request emitted to the external ledger collaborator
(`auto_post_to_ledger_orders` call site arguments). -/
structure LedgerEvent where
  entry_type : String
  reference_id : String
  reference_number : String
  party_type : String
  party_id : Option String
  party_name : Option String
  amount : ℚ
  gst_amount : ℚ
  description : String
  transaction_date : String
  created_by : String
deriving DecidableEq

/-- An HTTPException raised by an endpoint. -/
structure HErr where
  status : ℕ
  detail : String
deriving DecidableEq

/-- Outcome of one endpoint call: resulting database, the ledger events emitted
during the call, and the HTTP result. -/
structure Out (α : Type) where
  db : Db
  events : List LedgerEvent
  result : Except HErr α

/-- The `payment_data` dict received by `verify_payment` (untyped dict, every
key read with `.get`). -/
structure PaymentDataDict where
  razorpay_payment_id : Option String
  razorpay_signature : Option String
  razorpay_order_id : Option String
deriving DecidableEq

/-- `RemainingPaymentVerify` pydantic model. -/
structure RemainingPaymentVerify where
  razorpay_order_id : String
  razorpay_payment_id : String
  razorpay_signature : String
deriving DecidableEq

/-- The `data` dict received by `mark_cash_received`. -/
structure CashData where
  payment_type : Option String
  amount : Option ℚ
deriving DecidableEq

/-- Response of `create_order`. -/
structure CreateResp where
  order : Order
  razorpay_order_id : Option String
  razorpay_key : String
  customer_profile : Option CustomerProfile

/-- Response of the two payment-verification endpoints. -/
structure VerifyResp where
  order_id : String
  payment_status : String
deriving DecidableEq

/-- Response of `mark_cash_received`. -/
structure CashResp where
  payment_status : Option String
deriving DecidableEq

/-- Mongo `update_one`: update the first matching document only. -/
def updateFirst {α : Type} (p : α → Bool) (f : α → α) : List α → List α
  | [] => []
  | x :: xs => if p x then f x :: xs else x :: updateFirst p f xs

/-- `get_advance_settings`: the stored document, or the hardcoded defaults. -/
def get_advance_settings (db : Db) : AdvanceSettings :=
  db.settings.getD defaultAdvanceSettings

/-- `validate_advance_percent` (the source fetches the settings itself; here
they are passed, already fetched, as the first argument).  Returns
`(is_valid, error)`. -/
def validate_advance_percent (settings : AdvanceSettings) (_total_amount : ℚ)
    (requested_percent : ℤ) (is_credit : Bool) (user_role : String) :
    Bool × Option String :=
  let min_percent : ℤ :=
    if is_credit then settings.credit_customer_min.getD 0
    else settings.normal_customer_min.getD 50
  let allowed_options : List ℤ :=
    if is_credit then settings.credit_customer_options.getD [0, 25, 50, 75, 100]
    else settings.normal_customer_options.getD [50, 75, 100]
  if (user_role = "admin" ∨ user_role = "super_admin" ∨ user_role = "owner") ∧
      settings.admin_override_allowed.getD true = true then
    if requested_percent < 0 ∨ requested_percent > 100 then
      (false, some ("Invalid advance percentage: " ++ toString requested_percent ++ "%"))
    else
      (true, none)
  else
    if requested_percent < min_percent then
      (false, some ("Minimum advance required is " ++ toString min_percent ++ "%"))
    else if requested_percent ∉ allowed_options then
      (false, some "Advance must be one of the allowed options")
    else
      (true, none)

/-- `generate_order_number`: day prefix `LG` + YYMMDD, then the count of
existing orders whose number starts with that prefix, plus one, zero-padded
to 4 digits. -/
def generate_order_number (today : Date) (orders : List Order) : String :=
  let pfx := dayCode today
  let count := (orders.filter (fun o => startsWith pfx o.order_number)).length
  pfx ++ zfill 4 (natStr (count + 1))

/-- The computed totals of `create_order` (its lines `subtotal = ...` through
`total_price = ...`). -/
structure Totals where
  subtotal : ℚ
  total_sqft : ℚ
  tax_amount : ℚ
  total_price : ℚ
deriving DecidableEq

/-- Pricing block of `create_order`: subtotal, square footage, 18% GST and
grand total. -/
def computeTotals (items : List GlassItem) : Totals :=
  let subtotal := (items.map (fun it => it.total_price)).sum
  let total_sqft := (items.map (fun it => it.width * it.height * (it.quantity : ℚ) / 144)).sum
  let tax_rate : ℚ := 0.18
  let tax_amount := round2 (subtotal * tax_rate)
  let total_price := round2 (subtotal + tax_amount)
  { subtotal := subtotal, total_sqft := total_sqft,
    tax_amount := tax_amount, total_price := total_price }

/-- Credit-exposure query of `create_order`: remaining amounts of this
customer's not-completed orders; the query result is capped at 1000
documents (`.to_list(1000)`). -/
def creditOutstanding (db : Db) (cpid : Option String) : ℚ :=
  (((db.orders.filter
      (fun o => o.customer_profile_id == cpid && o.payment_status != "completed")).take 1000).map
    (fun o => o.remaining_amount)).sum

/-- Tail of `create_order` after the credit-limit guard: advance/remaining
amounts, order number, Razorpay order creation, document insert, and the
sales-invoice ledger posting. -/
def create_order_finish (cfg : Cfg) (gatewayOrderId : Option String) (db : Db)
    (current_user : User) (order_data : OrderCreate) (today : Date)
    (new_order_id : String) (now : String)
    (customer_profile : Option CustomerProfile)
    (customer_name customer_email customer_phone company_name gst_number : Option String)
    (billing_address : Option BillingAddress) (is_credit_customer : Bool)
    (credit_limit : ℚ) (credit_days : ℤ) (place_of_supply : Option String)
    (invoice_type : String) (delivery_address : Option DeliveryAddress)
    (totals : Totals) (advance_percent : ℤ) : Out CreateResp :=
  let advance_amount := round2 (totals.total_price * (advance_percent : ℚ) / 100)
  let remaining_amount := round2 (totals.total_price - advance_amount)
  let order_number := generate_order_number today db.orders
  let razorpay_order_id : Option String :=
    if advance_amount > 0 ∧ razorpayConfigured cfg = true then gatewayOrderId else none
  let order : Order :=
    { id := new_order_id
      order_number := order_number
      customer_id := current_user.id
      customer_profile_id := order_data.customer_profile_id
      customer_name := customer_name
      customer_email := customer_email
      customer_phone := customer_phone
      company_name := company_name
      gst_number := gst_number
      invoice_type := invoice_type
      place_of_supply := place_of_supply
      billing_address := billing_address
      glass_items := order_data.glass_items
      total_sqft := round2 totals.total_sqft
      subtotal := totals.subtotal
      tax_rate := 0.18
      tax_amount := totals.tax_amount
      total_price := totals.total_price
      advance_percent := advance_percent
      advance_amount := advance_amount
      remaining_amount := remaining_amount
      is_credit_customer := is_credit_customer
      credit_limit := credit_limit
      credit_days := credit_days
      payment_status := "pending"
      razorpay_order_id := razorpay_order_id
      status := "pending"
      production_stage := none
      delivery_address := delivery_address
      delivery_type := order_data.delivery_type
      notes := order_data.notes
      created_at := now
      updated_at := now
      razorpay_payment_id := none
      advance_paid_at := none
      remaining_razorpay_payment_id := none
      remaining_paid_at := none
      advance_payment_method := none
      remaining_payment_method := none }
  let event : LedgerEvent :=
    { entry_type := "sales_invoice"
      reference_id := order.id
      reference_number := order_number
      party_type := "customer"
      party_id := if truthy order_data.customer_profile_id then
          order_data.customer_profile_id else order.customer_id
      party_name := customer_name
      amount := totals.subtotal
      gst_amount := totals.tax_amount
      description := "Sales Order " ++ order_number
      transaction_date := now
      created_by := "system" }
  { db := { db with orders := db.orders ++ [order] }
    events := [event]
    result := Except.ok
      { order := order
        razorpay_order_id := razorpay_order_id
        razorpay_key := cfg.keyId
        customer_profile := customer_profile } }

/-- `create_order` endpoint.  Explicit parameters model the external
collaborators: `gatewayOrderId` is the outcome of the Razorpay
`order.create` attempt (`none` when the call raised and was swallowed),
`new_order_id` the generated uuid, `today` the current date and `now` the
current timestamp string. -/
def create_order (cfg : Cfg) (gatewayOrderId : Option String) (db : Db)
    (current_user : User) (order_data : OrderCreate) (today : Date)
    (new_order_id : String) (now : String) : Out CreateResp :=
  let profileLookup : Except HErr (Option CustomerProfile) :=
    match order_data.customer_profile_id with
    | none => Except.ok none
    | some cpid =>
      match db.customer_profiles.find? (fun p => p.id == cpid && p.status == "active") with
      | none => Except.error ⟨404, "Customer profile not found or inactive"⟩
      | some cp => Except.ok (some cp)
  match profileLookup with
  | Except.error e => ⟨db, [], Except.error e⟩
  | Except.ok customer_profile =>
    let customer_name :=
      match customer_profile with
      | some cp => pyOr cp.display_name order_data.customer_name
      | none => order_data.customer_name
    let customer_email :=
      match customer_profile with
      | some cp => pyOr cp.email order_data.customer_email
      | none => order_data.customer_email
    let customer_phone :=
      match customer_profile with
      | some cp => pyOr cp.mobile order_data.customer_phone
      | none => order_data.customer_phone
    let company_name :=
      match customer_profile with
      | some cp => pyOr cp.company_name order_data.company_name
      | none => order_data.company_name
    let gst_number :=
      match customer_profile with
      | some cp => pyOr cp.gstin order_data.gst_number
      | none => order_data.gst_number
    let billing_address :=
      match customer_profile with
      | some cp => cp.billing_address.orElse (fun _ => order_data.billing_address)
      | none => order_data.billing_address
    let is_credit_customer :=
      match customer_profile with
      | some cp => cp.credit_type == some "credit_allowed"
      | none => order_data.is_credit_customer
    let credit_limit : ℚ :=
      match customer_profile with
      | some cp => cp.credit_limit.getD 0
      | none => 0
    let credit_days : ℤ :=
      match customer_profile with
      | some cp => cp.credit_days.getD 0
      | none => 0
    let place_of_supply :=
      match customer_profile with
      | some cp => pyOr cp.place_of_supply order_data.place_of_supply
      | none => order_data.place_of_supply
    let invoice_type :=
      match customer_profile with
      | some cp => cp.invoice_type.getD "B2C"
      | none => "B2C"
    let delivery_address0 :=
      match customer_profile with
      | some cp =>
        if order_data.shipping_address_id.isSome ∧ order_data.delivery_address = none then
          match (cp.shipping_addresses.getD []).find?
              (fun addr => addr.id == order_data.shipping_address_id) with
          | some addr =>
            some { full_name := pyOr addr.contact_person customer_name
                   phone := pyOr addr.contact_phone customer_phone
                   address_line1 := some (addr.address_line1.getD "")
                   address_line2 := addr.address_line2
                   city := some (addr.city.getD "")
                   state := some (addr.state.getD "")
                   pincode := some (addr.pin_code.getD "")
                   landmark := addr.site_name }
          | none => order_data.delivery_address
        else order_data.delivery_address
      | none => order_data.delivery_address
    let delivery_address :=
      match customer_profile with
      | some _ =>
        if delivery_address0 = none ∧ billing_address.isSome then
          match billing_address with
          | some b =>
            some { full_name := customer_name
                   phone := customer_phone
                   address_line1 := some (b.address_line1.getD "")
                   address_line2 := b.address_line2
                   city := some (b.city.getD "")
                   state := some (b.state.getD "")
                   pincode := some (b.pin_code.getD "")
                   landmark := none }
          | none => delivery_address0
        else delivery_address0
      | none => delivery_address0
    if truthy customer_name = false then
      ⟨db, [], Except.error ⟨400, "Customer name is required"⟩⟩
    else if truthy customer_phone = false then
      ⟨db, [], Except.error ⟨400, "Customer phone is required"⟩⟩
    else
      let totals := computeTotals order_data.glass_items
      let advance_percent : ℤ :=
        match order_data.advance_percent with
        | some p => p
        | none => if is_credit_customer then 0 else 50
      let v := validate_advance_percent (get_advance_settings db) totals.total_price
        advance_percent is_credit_customer (current_user.role.getD "customer")
      if v.1 = false then
        ⟨db, [], Except.error ⟨400, (v.2.getD "")⟩⟩
      else if is_credit_customer = true ∧ customer_profile.isSome = true then
        let outstanding := creditOutstanding db order_data.customer_profile_id
        if outstanding + totals.total_price > credit_limit then
          ⟨db, [], Except.error ⟨400, "Order exceeds credit limit"⟩⟩
        else
          create_order_finish cfg gatewayOrderId db current_user order_data today
            new_order_id now customer_profile customer_name customer_email
            customer_phone company_name gst_number billing_address
            is_credit_customer credit_limit credit_days place_of_supply
            invoice_type delivery_address totals advance_percent
      else
        create_order_finish cfg gatewayOrderId db current_user order_data today
          new_order_id now customer_profile customer_name customer_email
          customer_phone company_name gst_number billing_address
          is_credit_customer credit_limit credit_days place_of_supply
          invoice_type delivery_address totals advance_percent

/-- `verify_payment` endpoint (advance leg).  `hmacSig secret message` models
the HMAC-SHA256 hex digest. -/
def verify_payment (hmacSig : String → String → String) (cfg : Cfg) (db : Db)
    (order_id : String) (payment_data : PaymentDataDict) (now : String) :
    Out VerifyResp :=
  match db.orders.find? (fun o => o.id == order_id) with
  | none => ⟨db, [], Except.error ⟨404, "Order not found"⟩⟩
  | some order =>
    let message := optStr payment_data.razorpay_order_id ++ "|" ++
      optStr payment_data.razorpay_payment_id
    if razorpayConfigured cfg = true ∧
        payment_data.razorpay_signature ≠ some (hmacSig cfg.keySecret message) then
      ⟨db, [], Except.error ⟨400, "Payment verification failed"⟩⟩
    else
      let payment_status := if order.remaining_amount > 0 then "partial" else "completed"
      let newOrders := updateFirst (fun o => o.id == order_id)
        (fun o =>
          { o with
            razorpay_payment_id := payment_data.razorpay_payment_id
            payment_status := payment_status
            status := if payment_status = "partial" ∨ payment_status = "completed" then
                "processing" else "pending"
            advance_paid_at := some now
            updated_at := now }) db.orders
      let event : LedgerEvent :=
        { entry_type := "payment_received"
          reference_id := order_id ++ "-advance"
          reference_number := "RCP-" ++ order.order_number ++ "-ADV"
          party_type := "customer"
          -- the source reads `order.get("user_id", "")`; orders carry no
          -- `user_id` key, so this is always the empty string
          party_id := some ""
          party_name := order.customer_name
          amount := order.advance_amount
          gst_amount := 0
          description := "Advance Payment for Order " ++ order.order_number
          transaction_date := now
          created_by := "system" }
      { db := { db with orders := newOrders }
        events := [event]
        result := Except.ok { order_id := order_id, payment_status := payment_status } }

/-- `verify_remaining_payment` endpoint (remaining leg).  Note: the source
posts no ledger event on this path. -/
def verify_remaining_payment (hmacSig : String → String → String) (cfg : Cfg)
    (db : Db) (order_id : String) (payment_data : RemainingPaymentVerify)
    (now : String) : Out VerifyResp :=
  match db.orders.find? (fun o => o.id == order_id) with
  | none => ⟨db, [], Except.error ⟨404, "Order not found"⟩⟩
  | some _order =>
    let message := payment_data.razorpay_order_id ++ "|" ++ payment_data.razorpay_payment_id
    if razorpayConfigured cfg = true ∧
        payment_data.razorpay_signature ≠ hmacSig cfg.keySecret message then
      ⟨db, [], Except.error ⟨400, "Payment verification failed"⟩⟩
    else
      let newOrders := updateFirst (fun o => o.id == order_id)
        (fun o =>
          { o with
            remaining_razorpay_payment_id := some payment_data.razorpay_payment_id
            remaining_amount := 0
            payment_status := "completed"
            remaining_paid_at := some now
            updated_at := now }) db.orders
      { db := { db with orders := newOrders }
        events := []
        result := Except.ok { order_id := order_id, payment_status := "completed" } }

/-- `mark_cash_received` endpoint (admin-only administrative transition; the
source posts no ledger event on this path). -/
def mark_cash_received (db : Db) (current_user : User) (order_id : String)
    (data : CashData) (cash_id : String) (now : String) : Out CashResp :=
  let roleOk : Bool :=
    match current_user.role with
    | some r => r == "admin" || r == "super_admin" || r == "owner" || r == "accountant"
    | none => false
  if roleOk = true then
    match db.orders.find? (fun o => o.id == order_id) with
    | none => ⟨db, [], Except.error ⟨404, "Order not found"⟩⟩
    | some order =>
      let payment_type := data.payment_type.getD "advance"
      let amount := data.amount.getD 0
      let payment_status_set : String :=
        if payment_type = "advance" then
          if order.remaining_amount > 0 then "partial" else "completed"
        else "completed"
      let newOrders := updateFirst (fun o => o.id == order_id)
        (fun o =>
          if payment_type = "advance" then
            { o with
              payment_status := payment_status_set
              status := "processing"
              advance_paid_at := some now
              advance_payment_method := some "cash"
              updated_at := now }
          else
            { o with
              remaining_amount := 0
              payment_status := "completed"
              remaining_paid_at := some now
              remaining_payment_method := some "cash"
              updated_at := now }) db.orders
      let cash : CashPayment :=
        { id := cash_id
          order_id := order_id
          order_number := order.order_number
          amount := amount
          payment_type := payment_type
          received_by := current_user.name
          received_at := now }
      { db := { db with orders := newOrders, cash_payments := db.cash_payments ++ [cash] }
        events := []
        result := Except.ok { payment_status := some payment_status_set } }
  else
    ⟨db, [], Except.error ⟨403, "Admin access required"⟩⟩

/-- The claimed money invariant of an order document. -/
def invariantHolds (o : Order) : Prop :=
  o.advance_amount + o.remaining_amount = o.total_price

/-- Modelled from the spec claim C5: the Advance Policy Resolver accepts iff
the role is privileged with overrides allowed and the percent lies in
[0,100], or the percent is at least the class minimum and belongs to the
class's allowed-option set. -/
def specAdvanceAccepts (settings : AdvanceSettings) (requested_percent : ℤ)
    (is_credit : Bool) (user_role : String) : Bool :=
  let min_percent : ℤ :=
    if is_credit then settings.credit_customer_min.getD 0
    else settings.normal_customer_min.getD 50
  let allowed_options : List ℤ :=
    if is_credit then settings.credit_customer_options.getD [0, 25, 50, 75, 100]
    else settings.normal_customer_options.getD [50, 75, 100]
  ((user_role = "admin" ∨ user_role = "super_admin" ∨ user_role = "owner") ∧
      settings.admin_override_allowed.getD true = true ∧
      0 ≤ requested_percent ∧ requested_percent ≤ 100) ∨
    (min_percent ≤ requested_percent ∧ requested_percent ∈ allowed_options)

/-- Modelled from the spec claim C3: outstanding credit exposure as the sum of
`remaining_amount` over ALL of the customer's not-completed orders (the source
caps the query at 1000 documents; this spec-side definition does not). -/
def outstandingAll (db : Db) (cpid : Option String) : ℚ :=
  ((db.orders.filter
      (fun o => o.customer_profile_id == cpid && o.payment_status != "completed")).map
    (fun o => o.remaining_amount)).sum

/-! ### Concrete fixtures used by witnesses and counterexamples -/

/-- A line item with the given quantity, dimensions, unit price and line
total; the remaining fields are fixed benign values. -/
def mkItem (q : ℤ) (w h up tp : ℚ) : GlassItem :=
  { product_id := "P1", product_name := "Clear Glass", thickness := 5,
    width := w, height := h, quantity := q, unit_price := up, total_price := tp,
    edging := none, tempering := false, lamination := false, notes := none }

/-- A manual-entry (no customer profile) order request. -/
def odManual (items : List GlassItem) (ap : Option ℤ) : OrderCreate :=
  { customer_profile_id := none, customer_name := some "Asha",
    customer_email := none, customer_phone := some "9999", glass_items := items,
    delivery_address := none, shipping_address_id := none,
    delivery_type := "standard", notes := none, advance_percent := ap,
    is_credit_customer := false, gst_number := none, company_name := none,
    place_of_supply := none, billing_address := none }

/-- An order request attributed to the credit profile `CP`. -/
def odCredit (items : List GlassItem) (ap : Option ℤ) : OrderCreate :=
  { customer_profile_id := some "CP", customer_name := none,
    customer_email := none, customer_phone := none, glass_items := items,
    delivery_address := none, shipping_address_id := none,
    delivery_type := "standard", notes := none, advance_percent := ap,
    is_credit_customer := false, gst_number := none, company_name := none,
    place_of_supply := none, billing_address := none }

/-- An active credit-allowed customer profile with the given credit limit. -/
def creditProfile (limit : ℚ) : CustomerProfile :=
  { id := "CP", status := "active", display_name := some "Beta Glass",
    email := none, mobile := some "8888", company_name := none,
    gstin := none, billing_address := none, credit_type := some "credit_allowed",
    credit_limit := some limit, credit_days := some 30, place_of_supply := none,
    invoice_type := none, shipping_addresses := none }

/-- An existing pending order document (advance 59, remaining 59, total 118). -/
def baseOrder : Order :=
  { id := "OID1", order_number := "X1", customer_id := some "U1",
    customer_profile_id := none, customer_name := some "Asha",
    customer_email := none, customer_phone := some "9999", company_name := none,
    gst_number := none, invoice_type := "B2C", place_of_supply := none,
    billing_address := none, glass_items := [], total_sqft := 1, subtotal := 100,
    tax_rate := 0.18, tax_amount := 18, total_price := 118, advance_percent := 50,
    advance_amount := 59, remaining_amount := 59, is_credit_customer := false,
    credit_limit := 0, credit_days := 0, payment_status := "pending",
    razorpay_order_id := some "rzo_1", status := "pending",
    production_stage := none, delivery_address := none,
    delivery_type := "standard", notes := none, created_at := "T0",
    updated_at := "T0", razorpay_payment_id := none, advance_paid_at := none,
    remaining_razorpay_payment_id := none, remaining_paid_at := none,
    advance_payment_method := none, remaining_payment_method := none }

/-- A pending order of customer profile `CP` with 1 currency unit still
outstanding. -/
def creditOrder : Order :=
  { baseOrder with
    id := "OLD"
    customer_profile_id := some "CP"
    remaining_amount := 1 }

/-- Database with 1001 open credit orders for profile `CP` (one more than the
credit query's 1000-document cap) against a credit limit of 1001. -/
def dbBig : Db := ⟨List.replicate 1001 creditOrder, [creditProfile 1001], none, []⟩

/-- Database with one open credit order of 94000 outstanding for profile `CP`
against a credit limit of 100000. -/
def dbCredit : Db :=
  ⟨[{ creditOrder with remaining_amount := 94000 }], [creditProfile 100000], none, []⟩

/-- Database with no documents at all. -/
def emptyDb : Db := ⟨[], [], none, []⟩

/-- Database holding just the pending `baseOrder`. -/
def dbOne : Db := ⟨[baseOrder], [], none, []⟩

/-- An order whose advance leg already has a recorded gateway payment id
`pay_A`. -/
def paidOrder : Order :=
  { baseOrder with
    razorpay_payment_id := some "pay_A"
    payment_status := "partial"
    status := "processing" }

/-- Database holding just `paidOrder`. -/
def dbPaid : Db := ⟨[paidOrder], [], none, []⟩

/-- Environment without Razorpay keys (`razorpay_client` is `None`). -/
def cfg0 : Cfg := ⟨"", ""⟩

/-- Environment with Razorpay keys set (`razorpay_client` is configured). -/
def cfgC : Cfg := ⟨"rzp_key", "rzp_secret"⟩

/-- A fixed date for concrete runs. -/
def date0 : Date := ⟨2025, 10, 12⟩

/-- A customer-role user. -/
def user0 : User := ⟨some "U1", some "customer", some "Asha"⟩

/-- An admin-role user. -/
def userAdmin : User := ⟨some "U9", some "admin", some "Root"⟩

/-- A concrete stand-in for the HMAC-SHA256 primitive. -/
def hsig0 : String → String → String := fun _ _ => "SIG"

/-! ### Helper lemmas -/

theorem bankersRound_intCast (k : ℤ) : bankersRound (k : ℚ) = k := by
  unfold bankersRound
  simp [Int.floor_intCast]

theorem round2_of_eq (x y : ℚ) (k : ℤ) (h1 : 100 * x = (k : ℚ)) (h2 : (k : ℚ) / 100 = y) :
    round2 x = y := by
  unfold round2
  rw [h1, bankersRound_intCast, h2]

theorem round2_isCents (x : ℚ) : isCents (round2 x) :=
  ⟨bankersRound (100 * x), rfl⟩

theorem isCents_round2_self {x : ℚ} (h : isCents x) : round2 x = x := by
  obtain ⟨k, rfl⟩ := h
  refine round2_of_eq _ _ k ?_ rfl
  field_simp

theorem isCents_sub {a b : ℚ} (ha : isCents a) (hb : isCents b) : isCents (a - b) := by
  obtain ⟨j, rfl⟩ := ha
  obtain ⟨k, rfl⟩ := hb
  exact ⟨j - k, by push_cast; ring⟩

theorem find?_updateFirst {α : Type} (p : α → Bool) (f : α → α) (l : List α) (x : α)
    (hf : ∀ a, p a = true → p (f a) = true) (h : l.find? p = some x) :
    (updateFirst p f l).find? p = some (f x) := by
  induction l with
  | nil => simp at h
  | cons y ys ih =>
    by_cases hp : p y = true
    · rw [List.find?_cons_of_pos _ hp] at h
      injection h with h
      subst h
      simp [updateFirst, hp, List.find?_cons_of_pos _ (hf _ hp)]
    · rw [List.find?_cons_of_neg _ (by simpa using hp)] at h
      simp only [updateFirst]
      rw [if_neg hp, List.find?_cons_of_neg _ (by simpa using hp)]
      exact ih h

theorem listVal_foldl (l : List Char) (a : ℕ) :
    l.foldl (fun acc c => 10 * acc + digitVal c) a = a * 10 ^ l.length + listVal l := by
  induction l generalizing a with
  | nil => simp [listVal]
  | cons c t ih =>
    simp only [List.foldl_cons, List.length_cons, listVal]
    rw [ih (10 * a + digitVal c), ih (10 * 0 + digitVal c)]
    ring

theorem listVal_lt_of_digits (l : List Char) (h : ∀ c ∈ l, digitVal c < 10) :
    listVal l < 10 ^ l.length := by
  induction l with
  | nil => simp [listVal]
  | cons c t ih =>
    have hc : digitVal c < 10 := h c (by simp)
    have ht := ih (fun d hd => h d (by simp [hd]))
    simp only [listVal, List.foldl_cons, List.length_cons]
    rw [listVal_foldl]
    have : (10 * 0 + digitVal c) * 10 ^ t.length ≤ 9 * 10 ^ t.length := by
      have : digitVal c ≤ 9 := by omega
      simpa using Nat.mul_le_mul_right (10 ^ t.length) this
    calc (10 * 0 + digitVal c) * 10 ^ t.length + listVal t
        ≤ 9 * 10 ^ t.length + listVal t := by omega
      _ < 9 * 10 ^ t.length + 10 ^ t.length := by omega
      _ = 10 ^ (t.length + 1) := by ring

theorem digitVal_digitChar {d : ℕ} (h : d < 10) : digitVal (Nat.digitChar d) = d := by
  interval_cases d <;> decide

theorem natDigitsRev_digits (fuel n : ℕ) : ∀ d ∈ natDigitsRev fuel n, d < 10 := by
  induction fuel generalizing n with
  | zero => simp [natDigitsRev]
  | succ f ih =>
    intro d hd
    simp only [natDigitsRev] at hd
    by_cases hn : n = 0
    · simp [hn] at hd
    · rw [if_neg hn] at hd
      rcases List.mem_cons.mp hd with h | h
      · omega
      · exact ih (n / 10) d h

theorem natDigitsRev_foldl (fuel n a : ℕ) (h : n ≤ fuel) :
    ((natDigitsRev fuel n).reverse.map Nat.digitChar).foldl
      (fun acc c => 10 * acc + digitVal c) a =
    a * 10 ^ (natDigitsRev fuel n).length + n := by
  induction fuel generalizing n a with
  | zero =>
    have : n = 0 := by omega
    simp [natDigitsRev, this]
  | succ f ih =>
    by_cases hn : n = 0
    · simp [natDigitsRev, hn]
    · have hdiv : n / 10 ≤ f := by
        have h1 : n / 10 < n := Nat.div_lt_self (by omega) (by norm_num)
        omega
      simp only [natDigitsRev, if_neg hn, List.reverse_cons, List.map_append,
        List.map_cons, List.map_nil, List.foldl_append, List.foldl_cons,
        List.foldl_nil, List.length_cons]
      rw [ih (n / 10) a hdiv]
      rw [digitVal_digitChar (Nat.mod_lt n (by norm_num))]
      have := Nat.div_add_mod n 10
      ring_nf
      omega

theorem strVal_natStr (n : ℕ) : strVal (natStr n) = n := by
  unfold natStr
  by_cases hn : n = 0
  · simp [hn, strVal, listVal, digitVal]
  · rw [if_neg hn]
    show listVal _ = n
    unfold listVal
    have := natDigitsRev_foldl n n 0 (le_refl n)
    simpa using this

theorem foldl_zeros (k : ℕ) :
    (List.replicate k '0').foldl (fun acc c => 10 * acc + digitVal c) 0 = 0 := by
  induction k with
  | zero => simp
  | succ m ih => simpa [List.replicate_succ, digitVal] using ih

theorem strVal_zfill (w : ℕ) (s : String) : strVal (zfill w s) = strVal s := by
  unfold strVal zfill listVal
  show (((⟨List.replicate (w - s.data.length) '0'⟩ : String) ++ s).data).foldl _ 0 = _
  rw [String.data_append]
  rw [List.foldl_append]
  show s.data.foldl _ ((List.replicate (w - s.data.length) '0').foldl _ 0) = _
  rw [foldl_zeros]

theorem zfill_natStr_injective (w : ℕ) {a b : ℕ}
    (h : zfill w (natStr a) = zfill w (natStr b)) : a = b := by
  have := congrArg strVal h
  rwa [strVal_zfill, strVal_zfill, strVal_natStr, strVal_natStr] at this

theorem isDigit_digitChar {d : ℕ} (h : d < 10) : IsDigit (Nat.digitChar d) := by
  interval_cases d <;> exact ⟨by decide, by decide⟩

theorem isDigit_natStr (n : ℕ) : ∀ c ∈ (natStr n).data, IsDigit c := by
  unfold natStr
  by_cases hn : n = 0
  · rw [if_pos hn]
    intro c hc
    have : c = '0' := by
      have : ("0" : String).data = ['0'] := by decide
      rw [this] at hc
      simpa using hc
    subst this
    exact ⟨by decide, by decide⟩
  · rw [if_neg hn]
    intro c hc
    show IsDigit c
    have hc2 : c ∈ ((natDigitsRev n n).reverse).map Nat.digitChar := hc
    obtain ⟨d, hd, rfl⟩ := List.mem_map.mp hc2
    exact isDigit_digitChar (natDigitsRev_digits n n d (List.mem_reverse.mp hd))

theorem isDigit_zfill (w : ℕ) (s : String) (hs : ∀ c ∈ s.data, IsDigit c) :
    ∀ c ∈ (zfill w s).data, IsDigit c := by
  unfold zfill
  intro c hc
  rw [String.data_append] at hc
  rcases List.mem_append.mp hc with h | h
  · have : c = '0' := by
      have := List.eq_of_mem_replicate h
      exact this
    subst this
    exact ⟨by decide, by decide⟩
  · exact hs c h

theorem digitVal_lt_of_isDigit {c : Char} (h : IsDigit c) : digitVal c < 10 := by
  obtain ⟨h1, h2⟩ := h
  unfold digitVal
  omega

theorem char_lt_of_digitVal_lt {c d : Char} (hc : IsDigit c) (hd : IsDigit d)
    (h : digitVal c < digitVal d) : c < d := by
  obtain ⟨hc1, _⟩ := hc
  obtain ⟨hd1, _⟩ := hd
  show c.toNat < d.toNat
  unfold digitVal at h
  omega

theorem char_eq_of_digitVal_eq {c d : Char} (hc : IsDigit c) (hd : IsDigit d)
    (h : digitVal c = digitVal d) : c = d := by
  obtain ⟨hc1, _⟩ := hc
  obtain ⟨hd1, _⟩ := hd
  unfold digitVal at h
  have : c.toNat = d.toNat := by omega
  exact Char.eq_of_val_eq (UInt32.ext this)

theorem lex_append_left (p : List Char) {x y : List Char}
    (h : List.Lex (fun a b : Char => a < b) x y) :
    List.Lex (fun a b : Char => a < b) (p ++ x) (p ++ y) := by
  induction p with
  | nil => simpa using h
  | cons c t ih => exact List.Lex.cons ih

theorem lex_of_listVal_lt :
    ∀ (x y : List Char), x.length = y.length → (∀ c ∈ x, IsDigit c) →
    (∀ c ∈ y, IsDigit c) → listVal x < listVal y →
    List.Lex (fun a b : Char => a < b) x y := by
  intro x
  induction x with
  | nil =>
    intro y hlen _ _ hv
    have : y = [] := by
      cases y with
      | nil => rfl
      | cons d u => simp at hlen
    subst this
    simp at hv
  | cons c t ih =>
    intro y hlen hx hy hv
    cases y with
    | nil => simp at hlen
    | cons d u =>
      have hlen2 : t.length = u.length := by simpa using hlen
      have hcd : IsDigit c := hx c (by simp)
      have hdd : IsDigit d := hy d (by simp)
      have hvx : listVal (c :: t) = digitVal c * 10 ^ t.length + listVal t := by
        have e : listVal (c :: t) =
            t.foldl (fun a x => 10 * a + digitVal x) (10 * 0 + digitVal c) := rfl
        rw [e, listVal_foldl]
        ring_nf
      have hvy : listVal (d :: u) = digitVal d * 10 ^ u.length + listVal u := by
        have e : listVal (d :: u) =
            u.foldl (fun a x => 10 * a + digitVal x) (10 * 0 + digitVal d) := rfl
        rw [e, listVal_foldl]
        ring_nf
      rcases lt_trichotomy (digitVal c) (digitVal d) with hlt | heq | hgt
      · exact List.Lex.rel (char_lt_of_digitVal_lt hcd hdd hlt)
      · have : c = d := char_eq_of_digitVal_eq hcd hdd heq
        subst this
        refine List.Lex.cons (ih u hlen2 (fun a ha => hx a (by simp [ha]))
          (fun a ha => hy a (by simp [ha])) ?_)
        rw [hvx, hvy, heq, hlen2] at hv
        omega
      · exfalso
        have hbt : listVal t < 10 ^ t.length :=
          listVal_lt_of_digits t
            (fun a ha => digitVal_lt_of_isDigit (hx a (by simp [ha])))
        have hbu : listVal u < 10 ^ u.length :=
          listVal_lt_of_digits u
            (fun a ha => digitVal_lt_of_isDigit (hy a (by simp [ha])))
        rw [hvx, hvy, hlen2] at hv
        have : (digitVal d + 1) * 10 ^ u.length ≤ digitVal c * 10 ^ u.length :=
          Nat.mul_le_mul_right _ (by omega)
        nlinarith

theorem natStr_length_le (n k : ℕ) (hn : n < 10 ^ k) (hk : 1 ≤ k) :
    (natStr n).data.length ≤ k := by
  unfold natStr
  by_cases h0 : n = 0
  · rw [if_pos h0]
    have : ("0" : String).data.length = 1 := by decide
    omega
  · rw [if_neg h0]
    show (((natDigitsRev n n).reverse).map Nat.digitChar).length ≤ k
    rw [List.length_map, List.length_reverse]
    clear hk
    have main : ∀ (fuel m j : ℕ), m < 10 ^ j → (natDigitsRev fuel m).length ≤ j := by
      intro fuel
      induction fuel with
      | zero => intro m j _; simp [natDigitsRev]
      | succ f ihf =>
        intro m j hm
        unfold natDigitsRev
        by_cases hm0 : m = 0
        · simp [hm0]
        · rw [if_neg hm0]
          have hj : 1 ≤ j := by
            by_contra hj
            have : j = 0 := by omega
            subst this
            simp at hm
            omega
          have hdiv : m / 10 < 10 ^ (j - 1) := by
            have h10 : (10 : ℕ) ^ j = 10 ^ (j - 1) * 10 := by
              conv =>
                lhs
                rw [show j = (j - 1) + 1 by omega]
              ring
            rw [h10] at hm
            exact Nat.div_lt_of_lt_mul (by omega)
          have := ihf (m / 10) (j - 1) hdiv
          simp only [List.length_cons]
          omega
    exact main n n k hn

theorem zfill_length (w : ℕ) (s : String) (h : s.data.length ≤ w) :
    (zfill w s).data.length = w := by
  unfold zfill
  rw [String.data_append, List.length_append]
  show (List.replicate (w - s.data.length) '0').length + s.data.length = w
  rw [List.length_replicate]
  omega

theorem zfill_natStr_lt {a b w : ℕ} (hw : 1 ≤ w) (hab : a < b) (hb : b < 10 ^ w) :
    List.Lex (fun c d : Char => c < d) (zfill w (natStr a)).data (zfill w (natStr b)).data := by
  apply lex_of_listVal_lt
  · rw [zfill_length w _ (natStr_length_le a w (by omega) hw),
      zfill_length w _ (natStr_length_le b w hb hw)]
  · exact isDigit_zfill w _ (isDigit_natStr a)
  · exact isDigit_zfill w _ (isDigit_natStr b)
  · show strVal (zfill w (natStr a)) < strVal (zfill w (natStr b))
    rw [strVal_zfill, strVal_zfill, strVal_natStr, strVal_natStr]
    exact hab

/-! ### Claim C5 -/

/-- A settings document whose normal-customer allowed options contain a value
above 100; used to separate the claimed acceptance condition from the code. -/
def settingsC5 : AdvanceSettings :=
  { normal_customer_min := some 50
    normal_customer_options := some [50, 150]
    credit_customer_min := some 0
    credit_customer_options := some [0, 25, 50, 75, 100]
    admin_override_allowed := some true
    max_credit_limit := some 100000 }

/-- C5 (counterexample): under a configuration whose allowed-option set
contains 150, an admin with overrides allowed requesting 150% satisfies the
claimed acceptance condition (150 is at least the minimum and in the allowed
set), yet `validate_advance_percent` rejects it: the privileged branch takes
precedence and bounds the percent to [0,100]. -/
theorem C5_counterexample :
    specAdvanceAccepts settingsC5 150 false "admin" = true ∧
    (validate_advance_percent settingsC5 1000 150 false "admin").1 = false := by
  constructor
  · decide
  · decide

/-- C5 (amended): `validate_advance_percent` accepts iff either the caller is
privileged (admin, super_admin or owner) with overrides allowed and the
requested percent lies in [0,100] — this branch takes precedence and applies
even when the percent is in the class's allowed-option set — or the caller is
not in that privileged-with-override case and the percent is at least the
class minimum and belongs to the class's allowed-option set. -/
theorem C5_advance_policy_amended (settings : AdvanceSettings) (T : ℚ) (p : ℤ)
    (is_credit : Bool) (role : String) :
    (validate_advance_percent settings T p is_credit role).1 = true ↔
    (((role = "admin" ∨ role = "super_admin" ∨ role = "owner") ∧
        settings.admin_override_allowed.getD true = true) ∧ 0 ≤ p ∧ p ≤ 100) ∨
    (¬((role = "admin" ∨ role = "super_admin" ∨ role = "owner") ∧
        settings.admin_override_allowed.getD true = true) ∧
      (if is_credit then settings.credit_customer_min.getD 0
        else settings.normal_customer_min.getD 50) ≤ p ∧
      p ∈ (if is_credit then settings.credit_customer_options.getD [0, 25, 50, 75, 100]
        else settings.normal_customer_options.getD [50, 75, 100])) := by
  unfold validate_advance_percent
  split_ifs <;> simp_all <;> try omega
  all_goals split_ifs with hmin hmem <;> simp_all

/-! ### Claim C8 -/

/-- C8: with `k` existing orders whose order number starts with the day's
prefix, `generate_order_number` returns `LG` + YYMMDD + `k+1` zero-padded to
4 digits; numbers generated at different same-day counts are distinct, and
increasing counts give lexicographically increasing numbers throughout the
four-digit range of the zero-padded sequence. -/
theorem C8_order_number_format (d : Date) (orders orders2 : List Order) (k k2 : ℕ)
    (hk : k = (orders.filter (fun o => startsWith (dayCode d) o.order_number)).length)
    (hk2 : k2 = (orders2.filter (fun o => startsWith (dayCode d) o.order_number)).length) :
    generate_order_number d orders = "LG" ++ yymmdd d ++ zfill 4 (natStr (k + 1)) ∧
    (k ≠ k2 → generate_order_number d orders ≠ generate_order_number d orders2) ∧
    (k < k2 → k2 ≤ 9998 → generate_order_number d orders < generate_order_number d orders2) := by
  have hfmt : ∀ (os : List Order) (j : ℕ),
      j = (os.filter (fun o => startsWith (dayCode d) o.order_number)).length →
      generate_order_number d os = dayCode d ++ zfill 4 (natStr (j + 1)) := by
    intro os j hj
    unfold generate_order_number
    rw [hj]
  refine ⟨?_, ?_, ?_⟩
  · rw [hfmt orders k hk]
    unfold dayCode
    rw [String.append_assoc]
  · intro hne heq
    rw [hfmt orders k hk, hfmt orders2 k2 hk2] at heq
    have hdata := congrArg String.data heq
    rw [String.data_append, String.data_append] at hdata
    have := List.append_cancel_left hdata
    have := zfill_natStr_injective 4 (String.ext this)
    omega
  · intro hlt hle
    rw [hfmt orders k hk, hfmt orders2 k2 hk2]
    rw [String.lt_iff_toList_lt]
    show (dayCode d ++ zfill 4 (natStr (k + 1))).data < (dayCode d ++ zfill 4 (natStr (k2 + 1))).data
    rw [String.data_append, String.data_append]
    show List.Lex (fun a b : Char => a < b) _ _
    apply lex_append_left
    exact zfill_natStr_lt (by norm_num) (by omega) (by omega)

/-- C8 witness: on a day with no matching orders the generated number is
`LG2510120001`; generating against a database that already holds that order
yields a different, lexicographically larger number. -/
theorem C8_order_number_format_witness :
    generate_order_number date0 [] = "LG" ++ yymmdd date0 ++ zfill 4 (natStr 1) ∧
    generate_order_number date0 [] ≠
      generate_order_number date0 [{ baseOrder with order_number := "LG2510120001" }] ∧
    generate_order_number date0 [] <
      generate_order_number date0 [{ baseOrder with order_number := "LG2510120001" }] := by
  have h := C8_order_number_format date0 [] [{ baseOrder with order_number := "LG2510120001" }]
    0 1 (by decide) (by decide)
  exact ⟨h.1, h.2.1 (by omega), h.2.2 (by omega) (by omega)⟩

/-! ### Shared characterization of the verify_payment success path -/

theorem verify_payment_ok_char (hmacSig : String → String → String) (cfg : Cfg)
    (db : Db) (oid : String) (pd : PaymentDataDict) (now : String) (o : Order)
    (hfind : db.orders.find? (fun x => x.id == oid) = some o)
    (hpass : ¬(razorpayConfigured cfg = true ∧ pd.razorpay_signature ≠
      some (hmacSig cfg.keySecret
        (optStr pd.razorpay_order_id ++ "|" ++ optStr pd.razorpay_payment_id)))) :
    (verify_payment hmacSig cfg db oid pd now).result.isOk = true ∧
    (verify_payment hmacSig cfg db oid pd now).events ≠ [] ∧
    (verify_payment hmacSig cfg db oid pd now).db.orders.find? (fun x => x.id == oid) =
      some { o with
        razorpay_payment_id := pd.razorpay_payment_id
        payment_status := if o.remaining_amount > 0 then "partial" else "completed"
        status := "processing"
        advance_paid_at := some now
        updated_at := now } := by
  unfold verify_payment
  rw [hfind]
  dsimp only
  rw [if_neg hpass]
  refine ⟨rfl, by simp, ?_⟩
  refine Eq.trans (find?_updateFirst _ _ db.orders o ?_ hfind) ?_
  · exact fun a ha => ha
  · by_cases hrem : o.remaining_amount > 0 <;> simp [hrem]

/-! ### Claim C7 -/

/-- C7: when `verify_payment` succeeds on an existing order, the order's
`payment_status` becomes `partial` if its `remaining_amount` is positive and
`completed` otherwise, and its fulfillment `status` becomes `processing`. -/
theorem C7_verify_payment_transitions (hmacSig : String → String → String)
    (cfg : Cfg) (db : Db) (oid : String) (pd : PaymentDataDict) (now : String)
    (o : Order) (hfind : db.orders.find? (fun x => x.id == oid) = some o)
    (hok : (verify_payment hmacSig cfg db oid pd now).result.isOk = true) :
    ∃ o2, (verify_payment hmacSig cfg db oid pd now).db.orders.find?
        (fun x => x.id == oid) = some o2 ∧
      o2.payment_status = (if o.remaining_amount > 0 then "partial" else "completed") ∧
      o2.status = "processing" := by
  by_cases hc : razorpayConfigured cfg = true ∧ pd.razorpay_signature ≠
      some (hmacSig cfg.keySecret
        (optStr pd.razorpay_order_id ++ "|" ++ optStr pd.razorpay_payment_id))
  · exfalso
    unfold verify_payment at hok
    rw [hfind] at hok
    dsimp only at hok
    rw [if_pos hc] at hok
    simp [Except.isOk, Except.toBool] at hok
  · obtain ⟨-, -, hup⟩ := verify_payment_ok_char hmacSig cfg db oid pd now o hfind hc
    exact ⟨_, hup, rfl, rfl⟩

/-- C7 witness: on the pending `baseOrder` (remaining 59 > 0), a successful
verification yields `payment_status = partial` and `status = processing`. -/
theorem C7_verify_payment_transitions_witness :
    ((verify_payment hsig0 cfg0 dbOne "OID1" ⟨some "payX", some "s", some "rzoX"⟩
        "T1").db.orders.find? (fun x => x.id == "OID1")).map
      (fun o2 => (o2.payment_status, o2.status)) = some ("partial", "processing") := by
  obtain ⟨o2, hfind, hps, hst⟩ := C7_verify_payment_transitions hsig0 cfg0 dbOne "OID1"
    ⟨some "payX", some "s", some "rzoX"⟩ "T1" baseOrder rfl (by decide)
  rw [hfind]
  have : o2.payment_status = "partial" := by
    rw [hps]
    norm_num [baseOrder]
  simp [this, hst]

/-! ### Claim C10 -/

/-- C10: for any stored order and any callback whose signature verifies over
the callback's own `(razorpay_order_id, razorpay_payment_id)` pair,
`verify_payment` succeeds and applies the advance-leg transition, recording
the callback's payment id — with no hypothesis relating the callback's
gateway order id to the order's stored `razorpay_order_id` and none about
any paid amount, so the transition is applied regardless of which gateway
order the callback belongs to. -/
theorem C10_verify_payment_unscoped (hmacSig : String → String → String)
    (cfg : Cfg) (db : Db) (oid : String) (pd : PaymentDataDict) (now : String)
    (o : Order) (hfind : db.orders.find? (fun x => x.id == oid) = some o)
    (hsig : pd.razorpay_signature = some (hmacSig cfg.keySecret
      (optStr pd.razorpay_order_id ++ "|" ++ optStr pd.razorpay_payment_id))) :
    (verify_payment hmacSig cfg db oid pd now).result.isOk = true ∧
    (verify_payment hmacSig cfg db oid pd now).db.orders.find?
        (fun x => x.id == oid) =
      some { o with
        razorpay_payment_id := pd.razorpay_payment_id
        payment_status := if o.remaining_amount > 0 then "partial" else "completed"
        status := "processing"
        advance_paid_at := some now
        updated_at := now } := by
  have hpass : ¬(razorpayConfigured cfg = true ∧ pd.razorpay_signature ≠
      some (hmacSig cfg.keySecret
        (optStr pd.razorpay_order_id ++ "|" ++ optStr pd.razorpay_payment_id))) :=
    fun hc => hc.2 hsig
  obtain ⟨h1, -, h3⟩ := verify_payment_ok_char hmacSig cfg db oid pd now o hfind hpass
  exact ⟨h1, h3⟩

/-- C10 witness: with the gateway configured, a validly-signed callback whose
gateway order id `rzo_OTHER` differs from the order's stored `rzo_1` still
succeeds and records the callback's payment id. -/
theorem C10_verify_payment_unscoped_witness :
    (verify_payment hsig0 cfgC dbOne "OID1"
        ⟨some "pay_B", some "SIG", some "rzo_OTHER"⟩ "T1").result.isOk = true ∧
    baseOrder.razorpay_order_id ≠ some "rzo_OTHER" ∧
    ((verify_payment hsig0 cfgC dbOne "OID1"
        ⟨some "pay_B", some "SIG", some "rzo_OTHER"⟩ "T1").db.orders.find?
      (fun x => x.id == "OID1")).map (fun o => o.razorpay_payment_id) =
      some (some "pay_B") := by
  have h := C10_verify_payment_unscoped hsig0 cfgC dbOne "OID1"
    ⟨some "pay_B", some "SIG", some "rzo_OTHER"⟩ "T1" baseOrder rfl rfl
  refine ⟨h.1, by decide, ?_⟩
  rw [h.2]
  rfl

/-! ### Claim C6 -/

/-- C6 (amended): when the Razorpay client is configured, a callback whose
signature differs from the HMAC recomputation over
`"<gateway_order_id>|<gateway_payment_id>"` makes `verify_payment` and
`verify_remaining_payment` fail with HTTP 400 and leave the database
completely unchanged with no ledger event emitted.  (When the client is not
configured, the source skips the signature check entirely, so the claim does
not hold unconditionally — see the counterexample.) -/
theorem C6_invalid_signature_amended (hmacSig : String → String → String)
    (cfg : Cfg) (db : Db) (oid : String) (pd : PaymentDataDict)
    (pd2 : RemainingPaymentVerify) (now : String) (o : Order)
    (hconf : razorpayConfigured cfg = true)
    (hfind : db.orders.find? (fun x => x.id == oid) = some o)
    (hbad : pd.razorpay_signature ≠ some (hmacSig cfg.keySecret
      (optStr pd.razorpay_order_id ++ "|" ++ optStr pd.razorpay_payment_id)))
    (hbad2 : pd2.razorpay_signature ≠ hmacSig cfg.keySecret
      (pd2.razorpay_order_id ++ "|" ++ pd2.razorpay_payment_id)) :
    verify_payment hmacSig cfg db oid pd now =
      ⟨db, [], Except.error ⟨400, "Payment verification failed"⟩⟩ ∧
    verify_remaining_payment hmacSig cfg db oid pd2 now =
      ⟨db, [], Except.error ⟨400, "Payment verification failed"⟩⟩ := by
  constructor
  · unfold verify_payment
    rw [hfind]
    dsimp only
    rw [if_pos ⟨hconf, hbad⟩]
  · unfold verify_remaining_payment
    rw [hfind]
    dsimp only
    rw [if_pos ⟨hconf, hbad2⟩]

/-- C6 witness: with keys configured, a callback signed `bad` (recomputation
yields `SIG`) is rejected on both legs and `dbOne` is untouched. -/
theorem C6_invalid_signature_amended_witness :
    verify_payment hsig0 cfgC dbOne "OID1" ⟨some "payX", some "bad", some "rzoX"⟩ "T1" =
      ⟨dbOne, [], Except.error ⟨400, "Payment verification failed"⟩⟩ ∧
    verify_remaining_payment hsig0 cfgC dbOne "OID1" ⟨"rzoX", "payX", "bad"⟩ "T1" =
      ⟨dbOne, [], Except.error ⟨400, "Payment verification failed"⟩⟩ :=
  C6_invalid_signature_amended hsig0 cfgC dbOne "OID1"
    ⟨some "payX", some "bad", some "rzoX"⟩ ⟨"rzoX", "payX", "bad"⟩ "T1" baseOrder
    rfl rfl (by decide) (by decide)

/-- C6 (counterexample): with no Razorpay keys configured the signature check
is skipped entirely: a callback whose signature `bad` does not match the
recomputation (`SIG`) still succeeds and mutates the order's payment state,
contradicting the claim as stated. -/
theorem C6_counterexample :
    hsig0 cfg0.keySecret (optStr (some "rzoX") ++ "|" ++ optStr (some "payX")) ≠ "bad" ∧
    (verify_payment hsig0 cfg0 dbOne "OID1"
      ⟨some "payX", some "bad", some "rzoX"⟩ "T1").result.isOk = true ∧
    ((verify_payment hsig0 cfg0 dbOne "OID1"
        ⟨some "payX", some "bad", some "rzoX"⟩ "T1").db.orders.find?
      (fun x => x.id == "OID1")).map
      (fun o => (o.payment_status, o.razorpay_payment_id)) =
      some ("partial", some "payX") ∧
    (verify_payment hsig0 cfg0 dbOne "OID1"
      ⟨some "payX", some "bad", some "rzoX"⟩ "T1").events ≠ [] := by
  refine ⟨by decide, by decide, ?_, by decide⟩
  obtain ⟨-, -, hup⟩ := verify_payment_ok_char hsig0 cfg0 dbOne "OID1"
    ⟨some "payX", some "bad", some "rzoX"⟩ "T1" baseOrder rfl (by decide)
  rw [hup]
  have hrem : baseOrder.remaining_amount > 0 := by norm_num [baseOrder]
  simp [hrem]

/-! ### Claim C2 -/

/-- C2 (counterexample): the order's advance leg already carries the recorded
payment id `pay_A`, yet a second validly-signed verification call with
payment id `pay_B` succeeds, overwrites the recorded id with `pay_B`, and
emits a ledger event again — there is no write-once guard, so the claimed
no-op behaviour is false. -/
theorem C2_counterexample :
    dbPaid.orders.map (fun o => o.razorpay_payment_id) = [some "pay_A"] ∧
    (verify_payment hsig0 cfgC dbPaid "OID1"
      ⟨some "pay_B", some "SIG", some "rzo_1"⟩ "T2").result.isOk = true ∧
    ((verify_payment hsig0 cfgC dbPaid "OID1"
        ⟨some "pay_B", some "SIG", some "rzo_1"⟩ "T2").db.orders.find?
      (fun x => x.id == "OID1")).map (fun o => o.razorpay_payment_id) =
      some (some "pay_B") ∧
    (verify_payment hsig0 cfgC dbPaid "OID1"
      ⟨some "pay_B", some "SIG", some "rzo_1"⟩ "T2").events ≠ [] := by
  refine ⟨by decide, ?_, ?_, ?_⟩
  · exact (verify_payment_ok_char hsig0 cfgC dbPaid "OID1"
      ⟨some "pay_B", some "SIG", some "rzo_1"⟩ "T2" paidOrder rfl (by decide)).1
  · rw [(verify_payment_ok_char hsig0 cfgC dbPaid "OID1"
      ⟨some "pay_B", some "SIG", some "rzo_1"⟩ "T2" paidOrder rfl (by decide)).2.2]
    rfl
  · exact (verify_payment_ok_char hsig0 cfgC dbPaid "OID1"
      ⟨some "pay_B", some "SIG", some "rzo_1"⟩ "T2" paidOrder rfl (by decide)).2.1

/-- C2 (amended): `verify_payment` has no write-once guard.  A validly-signed
call on an existing order always succeeds, unconditionally records the
callback's payment id (overwriting any previously recorded id), leaves
`remaining_amount` unchanged, and emits a ledger posting on every call.
Replaying the same callback therefore returns success again, re-applies the
update and re-emits the posting, but leaves `payment_status`,
`remaining_amount` and the recorded payment id at the same values, because
those values are functions of the unchanged `remaining_amount` and of the
callback itself. -/
theorem C2_no_write_once_guard (hmacSig : String → String → String) (cfg : Cfg)
    (db : Db) (oid : String) (pd : PaymentDataDict) (now now2 : String)
    (o : Order) (hfind : db.orders.find? (fun x => x.id == oid) = some o)
    (hsig : pd.razorpay_signature = some (hmacSig cfg.keySecret
      (optStr pd.razorpay_order_id ++ "|" ++ optStr pd.razorpay_payment_id))) :
    (verify_payment hmacSig cfg db oid pd now).result.isOk = true ∧
    (verify_payment hmacSig cfg db oid pd now).events ≠ [] ∧
    ∃ o1, (verify_payment hmacSig cfg db oid pd now).db.orders.find?
        (fun x => x.id == oid) = some o1 ∧
      o1.razorpay_payment_id = pd.razorpay_payment_id ∧
      o1.remaining_amount = o.remaining_amount ∧
      (verify_payment hmacSig cfg
        (verify_payment hmacSig cfg db oid pd now).db oid pd now2).result.isOk = true ∧
      (verify_payment hmacSig cfg
        (verify_payment hmacSig cfg db oid pd now).db oid pd now2).events ≠ [] ∧
      ∃ o2, (verify_payment hmacSig cfg
          (verify_payment hmacSig cfg db oid pd now).db oid pd now2).db.orders.find?
          (fun x => x.id == oid) = some o2 ∧
        o2.payment_status = o1.payment_status ∧
        o2.remaining_amount = o1.remaining_amount ∧
        o2.razorpay_payment_id = o1.razorpay_payment_id := by
  have hpass : ¬(razorpayConfigured cfg = true ∧ pd.razorpay_signature ≠
      some (hmacSig cfg.keySecret
        (optStr pd.razorpay_order_id ++ "|" ++ optStr pd.razorpay_payment_id))) :=
    fun hc => hc.2 hsig
  obtain ⟨h1, h2, h3⟩ := verify_payment_ok_char hmacSig cfg db oid pd now o hfind hpass
  obtain ⟨g1, g2, g3⟩ := verify_payment_ok_char hmacSig cfg
    (verify_payment hmacSig cfg db oid pd now).db oid pd now2 _ h3 hpass
  exact ⟨h1, h2, _, h3, rfl, rfl, g1, g2, _, g3, rfl, rfl, rfl⟩

/-- C2 witness: a concrete double verification of the same callback on
`dbOne`: both calls succeed, and after the second call the payment status,
remaining amount and recorded payment id equal the values after the first. -/
theorem C2_no_write_once_guard_witness :
    (verify_payment hsig0 cfgC dbOne "OID1"
      ⟨some "pay_A", some "SIG", some "rzo_1"⟩ "T1").result.isOk = true ∧
    ((verify_payment hsig0 cfgC
        (verify_payment hsig0 cfgC dbOne "OID1"
          ⟨some "pay_A", some "SIG", some "rzo_1"⟩ "T1").db "OID1"
        ⟨some "pay_A", some "SIG", some "rzo_1"⟩ "T2").db.orders.find?
      (fun x => x.id == "OID1")).map (fun o => o.razorpay_payment_id) =
      some (some "pay_A") := by
  obtain ⟨h1, -, o1, -, hid1, -, -, -, o2, hf2, -, -, hid⟩ :=
    C2_no_write_once_guard hsig0 cfgC dbOne "OID1"
      ⟨some "pay_A", some "SIG", some "rzo_1"⟩ "T1" "T2" baseOrder rfl rfl
  refine ⟨h1, ?_⟩
  rw [hf2]
  simp [hid, hid1]

/-! ### Characterizations of the remaining endpoint paths -/

theorem verify_payment_fail_char (hmacSig : String → String → String) (cfg : Cfg)
    (db : Db) (oid : String) (pd : PaymentDataDict) (now : String) (o : Order)
    (hfind : db.orders.find? (fun x => x.id == oid) = some o)
    (hc : razorpayConfigured cfg = true ∧ pd.razorpay_signature ≠
      some (hmacSig cfg.keySecret
        (optStr pd.razorpay_order_id ++ "|" ++ optStr pd.razorpay_payment_id))) :
    verify_payment hmacSig cfg db oid pd now =
      ⟨db, [], Except.error ⟨400, "Payment verification failed"⟩⟩ := by
  unfold verify_payment
  rw [hfind]
  dsimp only
  rw [if_pos hc]

theorem verify_remaining_ok_char (hmacSig : String → String → String) (cfg : Cfg)
    (db : Db) (oid : String) (pd2 : RemainingPaymentVerify) (now : String)
    (o : Order) (hfind : db.orders.find? (fun x => x.id == oid) = some o)
    (hpass : ¬(razorpayConfigured cfg = true ∧ pd2.razorpay_signature ≠
      hmacSig cfg.keySecret (pd2.razorpay_order_id ++ "|" ++ pd2.razorpay_payment_id))) :
    (verify_remaining_payment hmacSig cfg db oid pd2 now).result.isOk = true ∧
    (verify_remaining_payment hmacSig cfg db oid pd2 now).events = [] ∧
    (verify_remaining_payment hmacSig cfg db oid pd2 now).db.orders.find?
        (fun x => x.id == oid) =
      some { o with
        remaining_razorpay_payment_id := some pd2.razorpay_payment_id
        remaining_amount := 0
        payment_status := "completed"
        remaining_paid_at := some now
        updated_at := now } := by
  unfold verify_remaining_payment
  rw [hfind]
  dsimp only
  rw [if_neg hpass]
  refine ⟨rfl, rfl, ?_⟩
  refine Eq.trans (find?_updateFirst _ _ db.orders o ?_ hfind) ?_
  · exact fun a ha => ha
  · rfl

theorem verify_remaining_fail_char (hmacSig : String → String → String)
    (cfg : Cfg) (db : Db) (oid : String) (pd2 : RemainingPaymentVerify)
    (now : String) (o : Order)
    (hfind : db.orders.find? (fun x => x.id == oid) = some o)
    (hc : razorpayConfigured cfg = true ∧ pd2.razorpay_signature ≠
      hmacSig cfg.keySecret (pd2.razorpay_order_id ++ "|" ++ pd2.razorpay_payment_id)) :
    verify_remaining_payment hmacSig cfg db oid pd2 now =
      ⟨db, [], Except.error ⟨400, "Payment verification failed"⟩⟩ := by
  unfold verify_remaining_payment
  rw [hfind]
  dsimp only
  rw [if_pos hc]

set_option maxHeartbeats 1600000 in
theorem create_order_ok_char (cfg : Cfg) (gw : Option String) (db : Db) (cu : User)
    (od : OrderCreate) (today : Date) (oid now : String) (r : CreateResp)
    (h : (create_order cfg gw db cu od today oid now).result = Except.ok r) :
    r.order.subtotal = (computeTotals od.glass_items).subtotal ∧
    r.order.tax_amount = (computeTotals od.glass_items).tax_amount ∧
    r.order.total_price = (computeTotals od.glass_items).total_price ∧
    r.order.total_sqft = round2 (computeTotals od.glass_items).total_sqft ∧
    r.order.advance_amount =
      round2 ((computeTotals od.glass_items).total_price * (r.order.advance_percent : ℚ) / 100) ∧
    r.order.remaining_amount =
      round2 ((computeTotals od.glass_items).total_price - r.order.advance_amount) ∧
    r.order.payment_status = "pending" ∧
    r.order.glass_items = od.glass_items ∧
    r.order.tax_rate = 0.18 := by
  simp only [create_order] at h
  split at h
  · simp at h
  · split_ifs at h <;>
      first
      | simp at h
      | (simp only [create_order_finish] at h
         rw [Except.ok.injEq] at h
         subst h
         exact ⟨rfl, rfl, rfl, rfl, rfl, rfl, rfl, rfl, rfl⟩)

theorem mark_cash_forbidden_char (db : Db) (cu : User) (oid : String)
    (data : CashData) (cid now : String)
    (hrole : (match cu.role with
      | some r => r == "admin" || r == "super_admin" || r == "owner" || r == "accountant"
      | none => false) = false) :
    mark_cash_received db cu oid data cid now =
      ⟨db, [], Except.error ⟨403, "Admin access required"⟩⟩ := by
  unfold mark_cash_received
  dsimp only
  rw [hrole]
  simp

theorem mark_cash_advance_char (db : Db) (cu : User) (oid : String)
    (data : CashData) (cid now : String) (o : Order)
    (hrole : (match cu.role with
      | some r => r == "admin" || r == "super_admin" || r == "owner" || r == "accountant"
      | none => false) = true)
    (hfind : db.orders.find? (fun x => x.id == oid) = some o)
    (hadv : data.payment_type.getD "advance" = "advance") :
    (mark_cash_received db cu oid data cid now).result.isOk = true ∧
    (mark_cash_received db cu oid data cid now).events = [] ∧
    (mark_cash_received db cu oid data cid now).db.orders.find?
        (fun x => x.id == oid) =
      some { o with
        payment_status := if o.remaining_amount > 0 then "partial" else "completed"
        status := "processing"
        advance_paid_at := some now
        advance_payment_method := some "cash"
        updated_at := now } := by
  unfold mark_cash_received
  dsimp only
  rw [hrole]
  rw [if_pos rfl]
  rw [hfind]
  dsimp only
  refine ⟨rfl, rfl, ?_⟩
  refine Eq.trans (find?_updateFirst _ _ db.orders o ?_ hfind) ?_
  · intro a ha
    dsimp only
    split_ifs <;> exact ha
  · rw [if_pos hadv]
    simp [hadv]

theorem computeTotals_subtotal (items : List GlassItem) :
    (computeTotals items).subtotal = (items.map (fun it => it.total_price)).sum := rfl

theorem computeTotals_sqft (items : List GlassItem) :
    (computeTotals items).total_sqft =
      (items.map (fun it => it.width * it.height * (it.quantity : ℚ) / 144)).sum := rfl

theorem computeTotals_tax (items : List GlassItem) :
    (computeTotals items).tax_amount = round2 ((computeTotals items).subtotal * 0.18) := rfl

theorem computeTotals_total (items : List GlassItem) :
    (computeTotals items).total_price =
      round2 ((computeTotals items).subtotal + (computeTotals items).tax_amount) := rfl

/-! ### Claim C1 -/

/-- C1 (amended): `advance_amount + remaining_amount = total_price` holds of
every order document produced by `create_order`, and is preserved by
`verify_payment` and by the advance leg of `mark_cash_received` (neither
touches the three fields).  It is NOT preserved by `verify_remaining_payment`
(nor by the remaining leg of the cash path): a successful remaining-payment
verification sets `remaining_amount` to 0 while leaving `advance_amount` and
`total_price` unchanged, so afterwards the sum equals `advance_amount`,
which equals `total_price` only when the advance covered the full amount. -/
theorem C1_money_invariant_amended (hmacSig : String → String → String)
    (cfg : Cfg) (gw : Option String) (db : Db) (cu : User) (od : OrderCreate)
    (today : Date) (oid now : String) (pd : PaymentDataDict)
    (pd2 : RemainingPaymentVerify) (cd : CashData) (cid : String) (o : Order) :
    (∀ r, (create_order cfg gw db cu od today oid now).result = Except.ok r →
      invariantHolds r.order) ∧
    (db.orders.find? (fun x => x.id == oid) = some o →
      (∀ o2, (verify_payment hmacSig cfg db oid pd now).db.orders.find?
          (fun x => x.id == oid) = some o2 →
        o2.advance_amount = o.advance_amount ∧
        o2.remaining_amount = o.remaining_amount ∧
        o2.total_price = o.total_price) ∧
      (cd.payment_type.getD "advance" = "advance" →
        ∀ o2, (mark_cash_received db cu oid cd cid now).db.orders.find?
            (fun x => x.id == oid) = some o2 →
        o2.advance_amount = o.advance_amount ∧
        o2.remaining_amount = o.remaining_amount ∧
        o2.total_price = o.total_price) ∧
      ((verify_remaining_payment hmacSig cfg db oid pd2 now).result.isOk = true →
        ∀ o2, (verify_remaining_payment hmacSig cfg db oid pd2 now).db.orders.find?
            (fun x => x.id == oid) = some o2 →
        o2.remaining_amount = 0 ∧
        o2.advance_amount = o.advance_amount ∧
        o2.total_price = o.total_price)) := by
  constructor
  · intro r h
    obtain ⟨-, -, h3, -, h5, h6, -, -, -⟩ :=
      create_order_ok_char cfg gw db cu od today oid now r h
    have hT : isCents (computeTotals od.glass_items).total_price := by
      rw [computeTotals_total]
      exact round2_isCents _
    have hA : isCents r.order.advance_amount := by
      rw [h5]
      exact round2_isCents _
    have hrem : r.order.remaining_amount =
        (computeTotals od.glass_items).total_price - r.order.advance_amount := by
      rw [h6]
      exact isCents_round2_self (isCents_sub hT hA)
    unfold invariantHolds
    rw [h3, hrem]
    ring
  · intro hfind
    refine ⟨?_, ?_, ?_⟩
    · intro o2 h2
      by_cases hc : razorpayConfigured cfg = true ∧ pd.razorpay_signature ≠
          some (hmacSig cfg.keySecret
            (optStr pd.razorpay_order_id ++ "|" ++ optStr pd.razorpay_payment_id))
      · rw [verify_payment_fail_char hmacSig cfg db oid pd now o hfind hc] at h2
        dsimp only at h2
        rw [hfind] at h2
        injection h2 with h2
        subst h2
        exact ⟨rfl, rfl, rfl⟩
      · obtain ⟨-, -, h3c⟩ := verify_payment_ok_char hmacSig cfg db oid pd now o hfind hc
        rw [h3c] at h2
        injection h2 with h2
        subst h2
        exact ⟨rfl, rfl, rfl⟩
    · intro hadv o2 h2
      by_cases hrole : (match cu.role with
          | some r => r == "admin" || r == "super_admin" || r == "owner" || r == "accountant"
          | none => false) = true
      · obtain ⟨-, -, h3c⟩ := mark_cash_advance_char db cu oid cd cid now o hrole hfind hadv
        rw [h3c] at h2
        injection h2 with h2
        subst h2
        exact ⟨rfl, rfl, rfl⟩
      · rw [mark_cash_forbidden_char db cu oid cd cid now
          (Bool.not_eq_true _ ▸ hrole)] at h2
        dsimp only at h2
        rw [hfind] at h2
        injection h2 with h2
        subst h2
        exact ⟨rfl, rfl, rfl⟩
    · intro hok o2 h2
      by_cases hc : razorpayConfigured cfg = true ∧ pd2.razorpay_signature ≠
          hmacSig cfg.keySecret (pd2.razorpay_order_id ++ "|" ++ pd2.razorpay_payment_id)
      · rw [verify_remaining_fail_char hmacSig cfg db oid pd2 now o hfind hc] at hok
        simp [Except.isOk, Except.toBool] at hok
      · obtain ⟨-, -, h3c⟩ := verify_remaining_ok_char hmacSig cfg db oid pd2 now o hfind hc
        rw [h3c] at h2
        injection h2 with h2
        subst h2
        exact ⟨rfl, rfl, rfl⟩

/-- C1 (counterexample): a concrete order with advance 59, remaining 59,
total 118 satisfies the invariant after creation, but after a successful
remaining-payment verification the stored order has
`advance_amount + remaining_amount = 59 ≠ 118 = total_price`: the claim that
every payment-state operation preserves the sum is false. -/
theorem C1_counterexample :
    ((verify_remaining_payment hsig0 cfg0
        (create_order cfg0 none emptyDb user0
          (odManual [mkItem 1 12 12 100 100] (some 50)) date0 "OID" "T0").db
        "OID" ⟨"rzo", "rzp", "sg"⟩ "T1").db.orders.map
      (fun o => (o.advance_amount + o.remaining_amount, o.total_price))) = [(59, 118)] ∧
    (59 : ℚ) ≠ 118 := by
  constructor
  · simp only [create_order, create_order_finish, odManual, emptyDb, mkItem,
      computeTotals, cfg0, user0, truthy, generate_order_number,
      validate_advance_percent, get_advance_settings, defaultAdvanceSettings]
    norm_num
    rw [show round2 (18 : ℚ) = 18 from round2_of_eq _ _ 1800 (by norm_num) (by norm_num)]
    rw [show round2 (100 + 18 : ℚ) = 118 from round2_of_eq _ _ 11800 (by norm_num) (by norm_num)]
    rw [show round2 (118 * 50 / 100 : ℚ) = 59 from round2_of_eq _ _ 5900 (by norm_num) (by norm_num)]
    rw [show round2 (118 - 59 : ℚ) = 59 from round2_of_eq _ _ 5900 (by norm_num) (by norm_num)]
    simp [verify_remaining_payment, updateFirst, razorpayConfigured, hsig0]
  · norm_num

/-- C1 witness: the amended statement applied to concrete inputs: the created
order satisfies the invariant; `verify_payment` leaves the three amounts of
the stored pending order unchanged; a successful remaining-payment
verification zeroes `remaining_amount` while keeping advance 59 and
total 118. -/
theorem C1_money_invariant_amended_witness :
    (create_order cfg0 none emptyDb user0
        (odManual [mkItem 1 12 12 100 100] (some 50)) date0 "OID" "T0").result.map
      (fun r => r.order.advance_amount + r.order.remaining_amount == r.order.total_price) =
      Except.ok true ∧
    ((verify_payment hsig0 cfg0 dbOne "OID1" ⟨some "p", some "s", some "rz"⟩
        "T1").db.orders.find? (fun x => x.id == "OID1")).map
      (fun o2 => (o2.advance_amount, o2.remaining_amount, o2.total_price)) =
      some (59, 59, 118) ∧
    ((verify_remaining_payment hsig0 cfg0 dbOne "OID1" ⟨"rz", "p", "s"⟩
        "T1").db.orders.find? (fun x => x.id == "OID1")).map
      (fun o2 => (o2.remaining_amount, o2.advance_amount, o2.total_price)) =
      some (0, 59, 118) := by
  refine ⟨?_, ?_, ?_⟩
  · cases hE : (create_order cfg0 none emptyDb user0
        (odManual [mkItem 1 12 12 100 100] (some 50)) date0 "OID" "T0").result with
    | error e =>
      have : (create_order cfg0 none emptyDb user0
          (odManual [mkItem 1 12 12 100 100] (some 50)) date0 "OID" "T0").result.isOk
          = true := by decide
      rw [hE] at this
      simp [Except.isOk, Except.toBool] at this
    | ok r =>
      have h := (C1_money_invariant_amended hsig0 cfg0 none emptyDb user0
        (odManual [mkItem 1 12 12 100 100] (some 50)) date0 "OID" "T0"
        ⟨some "p", some "s", some "rz"⟩ ⟨"rz", "p", "s"⟩ ⟨some "advance", some 59⟩
        "C1" baseOrder).1 r hE
      unfold invariantHolds at h
      simp [Except.map, h]
  · have hup := (verify_payment_ok_char hsig0 cfg0 dbOne "OID1"
      ⟨some "p", some "s", some "rz"⟩ "T1" baseOrder rfl (by decide)).2.2
    have h := ((C1_money_invariant_amended hsig0 cfg0 none dbOne user0
      (odManual [mkItem 1 12 12 100 100] (some 50)) date0 "OID1" "T1"
      ⟨some "p", some "s", some "rz"⟩ ⟨"rz", "p", "s"⟩ ⟨some "advance", some 59⟩
      "C1" baseOrder).2 rfl).1 _ hup
    rw [hup]
    have e1 : baseOrder.advance_amount = (59 : ℚ) := rfl
    have e2 : baseOrder.remaining_amount = (59 : ℚ) := rfl
    have e3 : baseOrder.total_price = (118 : ℚ) := rfl
    simp [h.1, h.2.1, h.2.2, e1, e2, e3]
  · have hup := (verify_remaining_ok_char hsig0 cfg0 dbOne "OID1"
      ⟨"rz", "p", "s"⟩ "T1" baseOrder rfl (by decide)).2.2
    have h := ((C1_money_invariant_amended hsig0 cfg0 none dbOne user0
      (odManual [mkItem 1 12 12 100 100] (some 50)) date0 "OID1" "T1"
      ⟨some "p", some "s", some "rz"⟩ ⟨"rz", "p", "s"⟩ ⟨some "advance", some 59⟩
      "C1" baseOrder).2 rfl).2.2 (verify_remaining_ok_char hsig0 cfg0 dbOne "OID1"
        ⟨"rz", "p", "s"⟩ "T1" baseOrder rfl (by decide)).1 _ hup
    rw [hup]
    have e1 : baseOrder.advance_amount = (59 : ℚ) := rfl
    have e3 : baseOrder.total_price = (118 : ℚ) := rfl
    simp [h.1, h.2.1, h.2.2, e1, e3]

/-! ### Claim C4 -/

/-- C4: for every accepted order, the stored totals satisfy
`subtotal = Σ line.total_price`, `tax_amount = round2(subtotal * 0.18)`,
`total_price = round2(subtotal + tax_amount)` and
`total_sqft = round2(Σ width*height*quantity / 144)` (the per-item division
by 144 equals dividing the sum in exact arithmetic); in particular a
subtotal of 10000 yields tax 1800.00 and total 11800.00. -/
theorem C4_pricing_totals (cfg : Cfg) (gw : Option String) (db : Db) (cu : User)
    (od : OrderCreate) (today : Date) (oid now : String) (r : CreateResp)
    (h : (create_order cfg gw db cu od today oid now).result = Except.ok r) :
    r.order.subtotal = (od.glass_items.map (fun it => it.total_price)).sum ∧
    r.order.tax_amount = round2 (r.order.subtotal * 0.18) ∧
    r.order.total_price = round2 (r.order.subtotal + r.order.tax_amount) ∧
    r.order.total_sqft =
      round2 ((od.glass_items.map
        (fun it => it.width * it.height * (it.quantity : ℚ) / 144)).sum) ∧
    (r.order.subtotal = 10000 → r.order.tax_amount = 1800 ∧ r.order.total_price = 11800) := by
  obtain ⟨h1, h2, h3, h4, -, -, -, -, -⟩ :=
    create_order_ok_char cfg gw db cu od today oid now r h
  have hsub : r.order.subtotal = (od.glass_items.map (fun it => it.total_price)).sum := by
    rw [h1, computeTotals_subtotal]
  have htax : r.order.tax_amount = round2 (r.order.subtotal * 0.18) := by
    rw [h2, computeTotals_tax, h1]
  have htot : r.order.total_price = round2 (r.order.subtotal + r.order.tax_amount) := by
    rw [h3, computeTotals_total, h1, h2]
  refine ⟨hsub, htax, htot, by rw [h4, computeTotals_sqft], ?_⟩
  intro hs
  have ht1800 : r.order.tax_amount = 1800 := by
    rw [htax, hs]
    exact round2_of_eq _ _ 180000 (by norm_num) (by norm_num)
  refine ⟨ht1800, ?_⟩
  rw [htot, hs, ht1800]
  exact round2_of_eq _ _ 1180000 (by norm_num) (by norm_num)

/-- C4 witness: an order with a single line of total 10000 is created with
tax 1800 and total 11800. -/
theorem C4_pricing_totals_witness :
    (create_order cfg0 none emptyDb user0
        (odManual [mkItem 1 12 12 10000 10000] (some 50)) date0 "OID" "T0").result.map
      (fun r => (r.order.tax_amount, r.order.total_price)) = Except.ok (1800, 11800) := by
  cases hE : (create_order cfg0 none emptyDb user0
      (odManual [mkItem 1 12 12 10000 10000] (some 50)) date0 "OID" "T0").result with
  | error e =>
    have : (create_order cfg0 none emptyDb user0
        (odManual [mkItem 1 12 12 10000 10000] (some 50)) date0 "OID" "T0").result.isOk
        = true := by decide
    rw [hE] at this
    simp [Except.isOk, Except.toBool] at this
  | ok r =>
    have h := C4_pricing_totals cfg0 none emptyDb user0
      (odManual [mkItem 1 12 12 10000 10000] (some 50)) date0 "OID" "T0" r hE
    have hs : r.order.subtotal = 10000 := by
      rw [h.1]
      simp [odManual, mkItem]
    obtain ⟨ht, hp⟩ := h.2.2.2.2 hs
    simp [Except.map, ht, hp]

/-! ### Claim C9 -/

/-- C9 (counterexample): a line item with negative quantity, negative width
and a line total (999) that contradicts `unit_price * quantity` (-1) is
accepted by `create_order`, which creates the order: no `InvalidLineItem`
validation exists in the code. -/
theorem C9_counterexample :
    ((mkItem (-1) (-5) 2 1 999).quantity ≤ 0 ∧
      (mkItem (-1) (-5) 2 1 999).width ≤ 0 ∧
      (mkItem (-1) (-5) 2 1 999).total_price ≠
        (mkItem (-1) (-5) 2 1 999).unit_price *
          ((mkItem (-1) (-5) 2 1 999).quantity : ℚ)) ∧
    (create_order cfg0 none emptyDb user0
      (odManual [mkItem (-1) (-5) 2 1 999] (some 50)) date0 "OID"
      "T0").result.isOk = true := by
  constructor
  · refine ⟨by norm_num [mkItem], by norm_num [mkItem], ?_⟩
    norm_num [mkItem]
  · decide

/-- C9 (amended): `create_order` performs no line-item validation at all:
with the customer fields present and the advance-percent validation passing,
it succeeds for EVERY list of well-typed line items — including items with
non-positive quantity or dimensions or a line total inconsistent with
`unit_price * quantity` — and sums the submitted `total_price` values as
given. -/
theorem C9_no_line_item_validation (cfg : Cfg) (gw : Option String) (db : Db)
    (cu : User) (od : OrderCreate) (today : Date) (oid now : String)
    (hprof : od.customer_profile_id = none)
    (hname : truthy od.customer_name = true)
    (hphone : truthy od.customer_phone = true)
    (hv : (validate_advance_percent (get_advance_settings db)
      (computeTotals od.glass_items).total_price
      (match od.advance_percent with
       | some p => p
       | none => if od.is_credit_customer = true then 0 else 50)
      od.is_credit_customer (cu.role.getD "customer")).1 = true) :
    (create_order cfg gw db cu od today oid now).result.isOk = true ∧
    ∀ r, (create_order cfg gw db cu od today oid now).result = Except.ok r →
      r.order.glass_items = od.glass_items ∧
      r.order.subtotal = (od.glass_items.map (fun it => it.total_price)).sum := by
  constructor
  · unfold create_order
    rw [hprof]
    dsimp only
    rw [if_neg (by simp [hname])]
    rw [if_neg (by simp [hphone])]
    rw [if_neg (by simp [hv])]
    rw [if_neg (by simp)]
    rfl
  · intro r h
    obtain ⟨h1, -, -, -, -, -, -, h8, -⟩ :=
      create_order_ok_char cfg gw db cu od today oid now r h
    exact ⟨h8, by rw [h1, computeTotals_subtotal]⟩

/-- C9 witness: the amended statement at a benign concrete request. -/
theorem C9_no_line_item_validation_witness :
    (create_order cfg0 none emptyDb user0
      (odManual [mkItem 2 10 20 50 100] (some 75)) date0 "OID"
      "T0").result.isOk = true :=
  (C9_no_line_item_validation cfg0 none emptyDb user0
    (odManual [mkItem 2 10 20 50 100] (some 75)) date0 "OID" "T0"
    rfl (by decide) (by decide) (by decide)).1

/-! ### Claim C3 -/

set_option maxHeartbeats 1600000 in
theorem create_order_credit_iff (cfg : Cfg) (gw : Option String) (db : Db)
    (cu : User) (od : OrderCreate) (today : Date) (oid now : String)
    (cpid : String) (cp : CustomerProfile)
    (hcid : od.customer_profile_id = some cpid)
    (hfind : db.customer_profiles.find?
      (fun p => p.id == cpid && p.status == "active") = some cp)
    (hcredit : cp.credit_type = some "credit_allowed")
    (hname : truthy (pyOr cp.display_name od.customer_name) = true)
    (hphone : truthy (pyOr cp.mobile od.customer_phone) = true)
    (hv : (validate_advance_percent (get_advance_settings db)
      (computeTotals od.glass_items).total_price
      (match od.advance_percent with
       | some p => p
       | none => 0)
      true (cu.role.getD "customer")).1 = true) :
    ((create_order cfg gw db cu od today oid now).result.isOk = true ↔
      creditOutstanding db (some cpid) + (computeTotals od.glass_items).total_price ≤
        cp.credit_limit.getD 0) := by
  unfold create_order
  rw [hcid]
  dsimp only
  rw [hfind]
  dsimp only
  simp only [hcredit, beq_self_eq_true, if_true]
  rw [if_neg (by simp [hname])]
  rw [if_neg (by simp [hphone])]
  rw [if_neg (by simp [hv])]
  rw [if_pos (by simp)]
  by_cases hgt : creditOutstanding db (some cpid) +
      (computeTotals od.glass_items).total_price > cp.credit_limit.getD 0
  · rw [if_pos hgt]
    simp only [Except.isOk, Except.toBool]
    constructor
    · intro h
      exact absurd h (by simp)
    · intro h
      exact absurd h (not_le.mpr hgt)
  · rw [if_neg hgt]
    simp only [create_order_finish]
    simp only [Except.isOk, Except.toBool]
    constructor
    · intro _
      exact not_lt.mp hgt
    · intro _
      trivial

/-- C3 (amended): for a credit-allowed customer profile with limit `L`, and
with `O` the sum of `remaining_amount` over the FIRST 1000 of that customer's
orders with `payment_status ≠ completed` (the source caps the outstanding
query at 1000 documents), an otherwise-valid `create_order` of total `A`
succeeds iff `O + A ≤ L`; the boundary `O + A = L` succeeds and
`O + A = L + 0.01` is rejected (the order is not created, since the endpoint
returns before the insert). -/
theorem C3_credit_limit_amended (cfg : Cfg) (gw : Option String) (db : Db)
    (cu : User) (od : OrderCreate) (today : Date) (oid now : String)
    (cpid : String) (cp : CustomerProfile)
    (hcid : od.customer_profile_id = some cpid)
    (hfind : db.customer_profiles.find?
      (fun p => p.id == cpid && p.status == "active") = some cp)
    (hcredit : cp.credit_type = some "credit_allowed")
    (hname : truthy (pyOr cp.display_name od.customer_name) = true)
    (hphone : truthy (pyOr cp.mobile od.customer_phone) = true)
    (hv : (validate_advance_percent (get_advance_settings db)
      (computeTotals od.glass_items).total_price
      (match od.advance_percent with
       | some p => p
       | none => 0)
      true (cu.role.getD "customer")).1 = true) :
    ((create_order cfg gw db cu od today oid now).result.isOk = true ↔
      creditOutstanding db (some cpid) + (computeTotals od.glass_items).total_price ≤
        cp.credit_limit.getD 0) ∧
    (creditOutstanding db (some cpid) + (computeTotals od.glass_items).total_price =
        cp.credit_limit.getD 0 →
      (create_order cfg gw db cu od today oid now).result.isOk = true) ∧
    (creditOutstanding db (some cpid) + (computeTotals od.glass_items).total_price =
        cp.credit_limit.getD 0 + 1/100 →
      (create_order cfg gw db cu od today oid now).result.isOk = false) := by
  have hiff := create_order_credit_iff cfg gw db cu od today oid now cpid cp
    hcid hfind hcredit hname hphone hv
  refine ⟨hiff, ?_, ?_⟩
  · intro he
    exact hiff.mpr (le_of_eq he)
  · intro he
    have hnle : ¬(creditOutstanding db (some cpid) +
        (computeTotals od.glass_items).total_price ≤ cp.credit_limit.getD 0) := by
      rw [he]
      intro hle
      linarith
    have hne : (create_order cfg gw db cu od today oid now).result.isOk ≠ true :=
      fun hb => hnle (hiff.mp hb)
    simpa using hne

/-- C3 (counterexample): profile `CP` has credit limit 1001 and 1001 open
orders of 1 outstanding each, so the outstanding over ALL orders is 1001 and
a new order of total 0.59 should be rejected (1001 + 0.59 > 1001).  But the
source sums only the first 1000 documents returned by the capped query, gets
1000, and accepts the order: the claim's `iff` over the sum of all orders is
false. -/
theorem C3_counterexample :
    (create_order cfg0 none dbBig user0 (odCredit [mkItem 1 12 12 (1/2) (1/2)] none)
      date0 "OID" "T0").result.isOk = true ∧
    outstandingAll dbBig (some "CP") +
      (computeTotals [mkItem 1 12 12 (1/2) (1/2)]).total_price >
      (creditProfile 1001).credit_limit.getD 0 := by
  have hsub : (computeTotals [mkItem 1 12 12 (1/2) (1/2)]).subtotal = 1/2 := by
    rw [computeTotals_subtotal]
    simp [mkItem]
  have htax : (computeTotals [mkItem 1 12 12 (1/2) (1/2)]).tax_amount = 9/100 := by
    rw [computeTotals_tax, hsub]
    exact round2_of_eq _ _ 9 (by norm_num) (by norm_num)
  have htot : (computeTotals [mkItem 1 12 12 (1/2) (1/2)]).total_price = 59/100 := by
    rw [computeTotals_total, hsub, htax]
    exact round2_of_eq _ _ 59 (by norm_num) (by norm_num)
  have hfilter : dbBig.orders.filter
      (fun o => o.customer_profile_id == some "CP" && o.payment_status != "completed") =
      List.replicate 1001 creditOrder := by
    show (List.replicate 1001 creditOrder).filter _ = _
    rw [List.filter_replicate]
    rw [if_pos (by decide)]
  have hO : creditOutstanding dbBig (some "CP") = 1000 := by
    unfold creditOutstanding
    rw [hfilter, List.take_replicate, List.map_replicate, List.sum_replicate]
    norm_num [creditOrder, baseOrder]
  have hOall : outstandingAll dbBig (some "CP") = 1001 := by
    unfold outstandingAll
    rw [hfilter, List.map_replicate, List.sum_replicate]
    norm_num [creditOrder, baseOrder]
  constructor
  · have h := create_order_credit_iff cfg0 none dbBig user0
      (odCredit [mkItem 1 12 12 (1/2) (1/2)] none) date0 "OID" "T0" "CP"
      (creditProfile 1001) rfl rfl rfl (by decide) (by decide) (by decide)
    simp only [odCredit] at h
    apply h.mpr
    rw [hO, htot]
    have hL : (creditProfile 1001).credit_limit.getD 0 = 1001 := rfl
    rw [hL]
    norm_num
  · rw [hOall, htot]
    have hL : (creditProfile 1001).credit_limit.getD 0 = 1001 := rfl
    rw [hL]
    norm_num

/-- C3 witness: the spec's accept scenario — limit 100000, existing
outstanding 94000, new order total 118 — is accepted. -/
theorem C3_credit_limit_amended_witness :
    (create_order cfg0 none dbCredit user0 (odCredit [mkItem 1 12 12 100 100] none)
      date0 "OID" "T0").result.isOk = true := by
  have h := C3_credit_limit_amended cfg0 none dbCredit user0
    (odCredit [mkItem 1 12 12 100 100] none) date0 "OID" "T0" "CP"
    (creditProfile 100000) rfl rfl rfl (by decide) (by decide) (by decide)
  simp only [odCredit] at h
  apply h.1.mpr
  have hO : creditOutstanding dbCredit (some "CP") = 94000 := by
    unfold creditOutstanding
    simp [dbCredit, creditOrder, baseOrder, List.filter]
  have hsub : (computeTotals [mkItem 1 12 12 100 100]).subtotal = 100 := by
    rw [computeTotals_subtotal]
    simp [mkItem]
  have htax : (computeTotals [mkItem 1 12 12 100 100]).tax_amount = 18 := by
    rw [computeTotals_tax, hsub]
    exact round2_of_eq _ _ 1800 (by norm_num) (by norm_num)
  have htot : (computeTotals [mkItem 1 12 12 100 100]).total_price = 118 := by
    rw [computeTotals_total, hsub, htax]
    exact round2_of_eq _ _ 11800 (by norm_num) (by norm_num)
  rw [hO, htot]
  have hL : (creditProfile 100000).credit_limit.getD 0 = 100000 := rfl
  rw [hL]
  norm_num
